import Mathlib

/-!
Verification of the Query & Answer Engine of the slack-helper backend.

The definitions below are a shallow embedding of the relevant Python source:
  - backend/src/db/chromadb_client.py   (ChromaDBClient.search_messages)
  - backend/src/services/query_service.py (QueryService, semantic_search)
  - backend/src/services/qa_service.py  (QAService and its helpers)

Python strings are modelled as Lean `String` (a list of code points, matching
CPython semantics for slicing, length and case mapping on the ASCII range);
Python `None`-able values as `Option`; Python dictionaries used as ChromaDB
metadata filters as insertion-ordered association lists with last-write-wins
assignment; raised exceptions as `Except`.  External collaborators (the vector
store query, the relational users table, the text-generation API and the
wall clock) are parameters collected in an `Env` record; times are integer
epoch seconds.
-/

set_option maxRecDepth 10000

/-! ## Python string primitives -/

/-- The apostrophe character, used to build literals containing it. -/
def squoChar : Char := Char.ofNat 39

/-- One-character string holding an apostrophe. -/
def squo : String := String.mk [squoChar]

/-- The en dash accepted by the confidence regex character class `[-–]`. -/
def enDash : Char := Char.ofNat 8211

/-- ASCII whitespace as recognised by Python `str.split` / `str.strip`. -/
def pyIsSpace (c : Char) : Bool :=
  c = ' ' || c = '\t' || c = '\n' || c = '\r' || c = Char.ofNat 11 || c = Char.ofNat 12

/-- Python `str.lower` (ASCII range). -/
def pyLower (s : String) : String := String.mk (s.data.map Char.toLower)

/-- Python `str.strip()` with no arguments. -/
def pyStrip (s : String) : String :=
  String.mk (((s.data.dropWhile pyIsSpace).reverse.dropWhile pyIsSpace).reverse)

/-- Python `s[:n]` on strings (code-point slicing). -/
def pySlice (s : String) (n : Nat) : String := String.mk (s.data.take n)

/-- Substring occurrence on char lists, modelling Python `needle in hay`. -/
def subOccurs (needle : List Char) : List Char → Bool
  | [] => needle.isEmpty
  | c :: rest => needle.isPrefixOf (c :: rest) || subOccurs needle rest

/-- Python `pat in hay` on strings. -/
def strContains (hay pat : String) : Bool := subOccurs pat.data hay.data

/-- Fuel-driven worker for `countOcc`; fuel is the haystack length. -/
def countOccGo (needle : List Char) : Nat → List Char → Nat
  | 0, _ => 0
  | _ + 1, [] => 0
  | fuel + 1, c :: rest =>
    if needle.isPrefixOf (c :: rest) then
      1 + countOccGo needle fuel (rest.drop (needle.length - 1))
    else countOccGo needle fuel rest

/-- Python `str.count`: non-overlapping occurrences, scanning left to right. -/
def countOcc (needle hay : List Char) : Nat := countOccGo needle hay.length hay

/-- Fuel-driven worker for `wordCount`. -/
def wcGo : Nat → List Char → Nat
  | 0, _ => 0
  | _ + 1, [] => 0
  | fuel + 1, c :: rest =>
    if pyIsSpace c then wcGo fuel rest
    else 1 + wcGo fuel (rest.dropWhile (fun x => !pyIsSpace x))

/-- `len(s.split())` in Python: words separated by runs of whitespace. -/
def wordCount (l : List Char) : Nat := wcGo l.length l

/-- Python `" and ".join(xs)`, as used for the empty-result filter list. -/
def joinAnd : List String → String
  | [] => ""
  | [a] => a
  | a :: rest => a ++ " and " ++ joinAnd rest

/-- Python `"\n\n".join(xs)`, as used by `_build_context`. -/
def joinBlankLine : List String → String
  | [] => ""
  | [a] => a
  | a :: rest => a ++ "\n\n" ++ joinBlankLine rest

/-- Word characters for the regex class `\w` (ASCII range). -/
def isWordChar (c : Char) : Bool := c.isAlphanum || c = '_'

/-! ## Data model -/

/-- Vector-store metadata mirror of one message: the keys written by
`ChromaDBClient.add_message`.  `none` models an absent dictionary key. -/
structure Metadata where
  workspace_id : Option String := none
  channel_id : Option String := none
  user_id : Option String := none
  timestamp : Option String := none
  channel_name : Option String := none
  user_name : Option String := none
  deriving DecidableEq

/-- A search result as assembled by `ChromaDBClient.search_messages`:
id, text, metadata and (possibly missing) similarity distance. -/
structure Msg where
  id : String := ""
  text : String := ""
  metadata : Metadata := {}
  distance : Option Int := none
  deriving DecidableEq

/-- One entry of the sources list built by `QAService._format_sources`. -/
structure Source where
  reference_number : Nat
  text : String
  channel : String
  user : String
  timestamp : String
  distance : Option Int
  deriving DecidableEq

/-- A project link extracted by `QAService._extract_project_links`. -/
structure Link where
  type : String
  url : String
  source_channel : String
  deriving DecidableEq

/-- The answer dictionary returned by `QAService.answer_question`.  The
`model` key is present only on some paths, hence `Option`. -/
structure Answer where
  answer : String
  sources : List Source
  confidence : Nat
  confidence_explanation : String
  project_links : List Link
  context_used : Nat
  model : Option String := none
  deriving DecidableEq

/-- Python exceptions crossing the component boundary. -/
inductive PyErr where
  | valueError (msg : String)
  | dbError
  | keyError
  | genError (msg : String)
  deriving DecidableEq

/-- `str(e)` for the exceptions above, used by the degradation handler. -/
def errMsg : PyErr → String
  | .valueError m => m
  | .dbError => "database error"
  | .keyError => "KeyError"
  | .genError m => m

/-! ## Python dict as metadata filter -/

/-- Lookup in an insertion-ordered association list (Python `d[k]` / `d.get`). -/
def dictGet (d : List (String × String)) (k : String) : Option String :=
  (d.find? (fun p => p.1 == k)).map (fun p => p.2)

/-- Python `d[k] = v`: overwrite in place if the key exists, else append. -/
def dictSet (d : List (String × String)) (k v : String) : List (String × String) :=
  if d.any (fun p => p.1 == k) then
    d.map (fun p => if p.1 == k then (k, v) else p)
  else d ++ [(k, v)]

/-! ## External collaborators -/

/-- External collaborators of the engine.  `query ws q n wf` is the vector
store collection query for workspace `ws` (ChromaDB `collection.query`);
`parse` models `float(ts)` + `datetime.fromtimestamp`, `none` being a parse
failure; `now` is `datetime.now()` in epoch seconds; `db` is the outcome of
the batch users-table lookup (already scoped to the workspace), `.error`
modelling a raised database exception; `gen system user` is the Anthropic
messages call returning the generated text or raising; `hasClient` is
whether an API key was configured. -/
structure Env where
  query : String → String → Nat → List (String × String) → List Msg
  parse : String → Option Int
  now : Int
  db : Except Unit (String → Option String)
  gen : String → String → Except String String
  hasClient : Bool

/-- `datetime.min` as epoch seconds (year 1), the fallback of
`QueryService._parse_timestamp` on unparseable input. -/
def datetimeMin : Int := -62135596800

/-- `QueryService._parse_timestamp`: parse or fall back to `datetime.min`. -/
def _parse_timestamp (parse : String → Option Int) (ts_string : String) : Int :=
  match parse ts_string with
  | some t => t
  | none => datetimeMin

/-! ## ChromaDBClient.search_messages and QueryService -/

/-- Isolation error message of `ChromaDBClient.search_messages`. -/
def isolationMsgChroma : String := "workspace_id is REQUIRED for ChromaDB search"

/-- Isolation error message of `QueryService.__init__`. -/
def isolationMsgQuery : String :=
  "workspace_id is REQUIRED for query service. This ensures workspace data isolation for security."

/-- Isolation error message of `QAService.__init__`. -/
def isolationMsgQA : String :=
  "workspace_id is REQUIRED for Q&A service. This ensures workspace data isolation for security."

/-- `ChromaDBClient.search_messages`: reject a falsy workspace id, then force
`where_filter['workspace_id'] = workspace_id` (last write wins) before the
collection query. -/
def search_messages (env : Env) (workspace_id : Option String) (query_text : String)
    (n_results : Nat) (where_filter : Option (List (String × String))) :
    Except PyErr (List Msg) :=
  if workspace_id.getD "" = "" then .error (.valueError isolationMsgChroma)
  else
    .ok (env.query (workspace_id.getD "") query_text n_results
      (dictSet (where_filter.getD []) ("workspace_id") (workspace_id.getD "")))

/-- `QueryService` state: the workspace id checked at construction. -/
structure QueryService where
  workspace_id : String
  deriving DecidableEq

/-- `QueryService.__init__`: raises `ValueError` on a falsy workspace id. -/
def QueryService.init (workspace_id : Option String) : Except PyErr QueryService :=
  if workspace_id.getD "" = "" then .error (.valueError isolationMsgQuery)
  else .ok { workspace_id := workspace_id.getD "" }

/-- The `where_filter` built by `QueryService.semantic_search` from a
(truthiness-tested) channel filter. -/
def channelWhere (channel_filter : Option String) : List (String × String) :=
  if channel_filter.getD "" = "" then []
  else [("channel_name", channel_filter.getD "")]

/-- `QueryService.semantic_search`: ChromaDB search plus the post-retrieval
day-window filter (`datetime.now() - timedelta(days=days_back)`). -/
def semantic_search (env : Env) (qs : QueryService) (query : String) (n_results : Nat)
    (channel_filter : Option String) (days_back : Option Nat) : Except PyErr (List Msg) :=
  let wf := channelWhere channel_filter
  match search_messages env (some qs.workspace_id) query n_results
      (if wf.isEmpty then none else some wf) with
  | .error e => .error e
  | .ok results =>
    if days_back.getD 0 ≠ 0 then
      .ok (results.filter (fun r =>
        decide (env.now - ((days_back.getD 0 : Nat) : Int) * 86400 <
          _parse_timestamp env.parse (r.metadata.timestamp.getD ""))))
    else .ok results

/-- The message list produced by a successful `semantic_search` (the only
outcome when the workspace id is non-empty). -/
def semList (env : Env) (ws query : String) (n_results : Nat)
    (channel_filter : Option String) (days_back : Option Nat) : List Msg :=
  let results := env.query ws query n_results
    (dictSet (channelWhere channel_filter) ("workspace_id") ws)
  if days_back.getD 0 ≠ 0 then
    results.filter (fun r =>
      decide (env.now - ((days_back.getD 0 : Nat) : Int) * 86400 <
        _parse_timestamp env.parse (r.metadata.timestamp.getD "")))
  else results

/-! ## QAService: construction and filter inference -/

/-- `QAService` state: its workspace id and owned `QueryService`. -/
structure QAService where
  workspace_id : String
  query_service : QueryService
  deriving DecidableEq

/-- `QAService.__init__`: raises `ValueError` on a falsy workspace id, then
constructs the inner `QueryService` with the same id. -/
def QAService.init (workspace_id : Option String) : Except PyErr QAService :=
  if workspace_id.getD "" = "" then .error (.valueError isolationMsgQA)
  else
    match QueryService.init workspace_id with
    | .error e => .error e
    | .ok qs => .ok { workspace_id := workspace_id.getD "", query_service := qs }

/-- The ordered temporal-phrase table of `QAService._detect_time_filter`
(Python dicts iterate in insertion order). -/
def time_patterns : List (String × Nat) :=
  [("today", 1), ("yesterday", 2), ("this week", 7), ("past week", 7),
   ("last week", 14), ("this month", 30), ("past month", 30), ("last month", 60),
   ("recent", 7), ("recently", 7), ("latest", 7)]

/-- `QAService._detect_time_filter`: first phrase (in table order) occurring
in the lowercased question wins; no match means no time filter. -/
def _detect_time_filter (question : String) : Option Nat :=
  (time_patterns.find? (fun pd => strContains (pyLower question) pd.1)).map
    (fun pd => pd.2)

/-- The channel keyword vocabulary of `QAService._detect_channel_filter`. -/
def channel_keywords : List String :=
  ["general", "standup", "hackathons", "random", "engineering",
   "design", "product", "marketing", "sales", "support",
   "dev", "testing", "qa", "operations", "announcements"]

/-- `QAService._detect_channel_filter`: first keyword occurring as `#name`,
`name channel` or `in name` in the lowercased question. -/
def _detect_channel_filter (question : String) : Option String :=
  channel_keywords.find? (fun ch =>
    strContains (pyLower question) ("#" ++ ch) ||
    strContains (pyLower question) (ch ++ " channel") ||
    strContains (pyLower question) ("in " ++ ch))

/-- `answer_question`: `days_back = self._detect_time_filter(question)` only
when no explicit value was supplied. -/
def resolveDays (question : String) (days_back : Option Nat) : Option Nat :=
  match days_back with
  | some d => some d
  | none => _detect_time_filter question

/-- `answer_question`: channel inference only when none was supplied. -/
def resolveChannel (question : String) (channel_filter : Option String) : Option String :=
  match channel_filter with
  | some c => some c
  | none => _detect_channel_filter question

/-! ## QAService quality filter -/

/-- The needle of `text.count` used by the mention-spam heuristic. -/
def mentionNeedle : List Char := ['<', '@']

/-- The fixed system-notification substrings skipped by the quality filter. -/
def skip_patterns : List String :=
  ["has joined the channel", "has left the channel", "set the channel topic",
   "set the channel description", "uploaded a file", "renamed the channel",
   "archived the channel", "pinned a message"]

/-- Whether one candidate passes all three drop tests of
`QAService._filter_quality_messages` (all applied to the lowercased text). -/
def keepMsg (msg : Msg) : Bool :=
  let text := pyLower msg.text
  !(decide ((pyStrip text).length < 10)) &&
  !(skip_patterns.any (fun p => strContains text p)) &&
  !(decide (0 < wordCount text.data) &&
    decide (wordCount text.data < 2 * countOcc mentionNeedle text.data))

/-- Loop body of `_filter_quality_messages`: `count` is the number of
survivors collected so far; the `break` fires after appending once
`len(quality_messages) >= limit`. -/
def filterQualityAux (limit : Nat) : List Msg → Nat → List Msg
  | [], _ => []
  | msg :: rest, count =>
    if keepMsg msg then
      if limit ≤ count + 1 then [msg]
      else msg :: filterQualityAux limit rest (count + 1)
    else filterQualityAux limit rest count

/-- `QAService._filter_quality_messages`. -/
def _filter_quality_messages (messages : List Msg) (limit : Nat) : List Msg :=
  filterQualityAux limit messages 0

/-! ## QAService context construction -/

/-- Channel name as rendered by `_build_context`: `metadata.get('channel_name', 'unknown')`. -/
def contextChannel (msg : Msg) : String := msg.metadata.channel_name.getD ("unknown")

/-- Author name as rendered by `_build_context`: `metadata.get('user_name', 'unknown')`. -/
def contextUser (msg : Msg) : String := msg.metadata.user_name.getD ("unknown")

/-- One context block of `_build_context`. -/
def contextPart (msg : Msg) : String :=
  "[#" ++ contextChannel msg ++ "] (from " ++ contextUser msg ++ "):\n" ++ msg.text

/-- `QAService._build_context`: blocks joined by a blank line. -/
def _build_context (messages : List Msg) : String :=
  joinBlankLine (messages.map contextPart)

/-! ## The confidence-line regex

`r':?\w*:?\s*\*?\*?Confidence:\s*(\d+)%\s*\*?\*?\s*[-–]\s*(.+?)(?:\n|$)'`
with `IGNORECASE | MULTILINE`, used both by `_extract_confidence`
(`re.search`) and by the answer sanitization (`re.sub`).  The matcher below
implements the backtracking search of the Python engine for this pattern:
only the `\w*` element ever needs genuine backtracking (all other greedy
elements are followed by characters disjoint from their classes), and the
lazy `(.+?)(?:\n|$)` tail resolves to the run of non-newline characters up
to the next newline, backing off into a trailing whitespace run when the
greedy `\s*` before it consumed the whole remainder. -/

/-- Lowercased-prefix test for a case-insensitive literal. -/
def lowerEqPrefix (lit l : List Char) : Bool :=
  decide ((l.take lit.length).map Char.toLower = lit)

/-- Consume `\*?\*?` greedily. -/
def dropStars2 : List Char → List Char
  | '*' :: '*' :: rest => rest
  | '*' :: rest => rest
  | l => l

/-- Digits of `(\d+)` to the extracted integer. -/
def digitsToNat (ds : List Char) : Nat :=
  ds.foldl (fun acc c => 10 * acc + (c.toNat - 48)) 0

/-- Match `\s*(.+?)(?:\n|$)` after the dash: returns the captured group and
the remainder after the whole match. -/
def confGroup2 (r : List Char) : Option (List Char × List Char) :=
  let w := r.takeWhile pyIsSpace
  let rest := r.drop w.length
  match rest with
  | [] =>
    let revW := w.reverse
    let nls := revW.takeWhile (fun c => c = '\n')
    match revW.drop nls.length with
    | [] => none
    | c :: _ => some ([c], List.replicate (nls.length - 1) '\n')
  | _ =>
    let g2 := rest.takeWhile (fun c => c ≠ '\n')
    match rest.drop g2.length with
    | '\n' :: r2 => some (g2, r2)
    | _ => some (g2, [])

/-- The confidence-pattern tail starting after the optional `:?\w*` junk:
`:?\s*\*?\*?Confidence:\s*(\d+)%\s*\*?\*?\s*[-–]\s*(.+?)(?:\n|$)`.
Returns (extracted integer, group 2, remainder after the match). -/
def confAfterJunk (s1 : List Char) : Option (Nat × List Char × List Char) :=
  let s2 := match s1 with | ':' :: r => r | _ => s1
  let s3 := s2.dropWhile pyIsSpace
  let s4 := dropStars2 s3
  if lowerEqPrefix ("confidence:".data) s4 then
    let s5 := s4.drop 11
    let s6 := s5.dropWhile pyIsSpace
    let ds := s6.takeWhile Char.isDigit
    if ds.isEmpty then none
    else
      match s6.drop ds.length with
      | '%' :: s8 =>
        let s9 := s8.dropWhile pyIsSpace
        let s10 := dropStars2 s9
        let s11 := s10.dropWhile pyIsSpace
        match s11 with
        | c :: s12 =>
          if c = '-' || c = enDash then
            (confGroup2 s12).map (fun p => (digitsToNat ds, p.1, p.2))
          else none
        | [] => none
      | _ => none
  else none

/-- Backtrack over the length of the greedy `\w*` junk (longest first). -/
def confTryK (s0 : List Char) : Nat → Option (Nat × List Char × List Char)
  | 0 => confAfterJunk s0
  | k + 1 =>
    match confAfterJunk (s0.drop (k + 1)) with
    | some r => some r
    | none => confTryK s0 k

/-- Attempt the confidence pattern at one position. -/
def matchConfAt (l : List Char) : Option (Nat × List Char × List Char) :=
  let s0 := match l with | ':' :: r => r | _ => l
  confTryK s0 (s0.takeWhile isWordChar).length

/-- `re.search` of the confidence pattern: leftmost matching position wins;
returns the extracted integer and group 2. -/
def reSearchConf : List Char → Option (Nat × List Char)
  | [] => none
  | c :: rest =>
    match matchConfAt (c :: rest) with
    | some r => some (r.1, r.2.1)
    | none => reSearchConf rest

/-! ## Emoji-shortcode removal and the generic re.sub driver -/

/-- Fuel-driven worker for `removeEmojiCodes`. -/
def emojiGo : Nat → List Char → List Char
  | 0, l => l
  | _ + 1, [] => []
  | fuel + 1, ':' :: rest =>
    let w := rest.takeWhile isWordChar
    if w.isEmpty then ':' :: emojiGo fuel rest
    else
      match rest.drop w.length with
      | ':' :: r2 => emojiGo fuel r2
      | _ => ':' :: emojiGo fuel rest
  | fuel + 1, c :: rest => c :: emojiGo fuel rest

/-- `re.sub(r':[\w_]+:', '', s)`: strip emoji shortcodes. -/
def removeEmojiCodes (l : List Char) : List Char := emojiGo l.length l

/-- Generic `re.sub(pattern, '', s)` driver: `m` attempts a match at the
current position and returns the remainder after it (every pattern used
here consumes at least one character, so fuel `l.length` is exact). -/
def reSubAux (m : List Char → Option (List Char)) : Nat → List Char → List Char
  | 0, l => l
  | _ + 1, [] => []
  | fuel + 1, c :: rest =>
    match m (c :: rest) with
    | some rem => reSubAux m fuel rem
    | none => c :: reSubAux m fuel rest

/-! ## QAService._extract_confidence -/

/-- Phrases of the confidence-10 fallback bucket. -/
def phrases10 : List String :=
  ["couldn" ++ squo ++ "t find", "don" ++ squo ++ "t have", "no information"]

/-- Phrases of the confidence-30 fallback bucket. -/
def phrases30 : List String := ["not sure", "unclear", "uncertain"]

/-- Phrases of the confidence-55 fallback bucket. -/
def phrases55 : List String := ["might", "possibly", "seems"]

/-- `QAService._extract_confidence`: parse the confidence line, else apply
the keyword heuristic over the lowercased answer. -/
def _extract_confidence (answer : String) : Nat × String :=
  match reSearchConf answer.data with
  | some (confidence, g2) =>
    let explanation := pyStrip (String.mk g2)
    (confidence, pyStrip (String.mk (removeEmojiCodes explanation.data)))
  | none =>
    let answer_lower := pyLower answer
    if phrases10.any (fun p => strContains answer_lower p) then
      (10, "No relevant information found")
    else if phrases30.any (fun p => strContains answer_lower p) then
      (30, "Limited or unclear information")
    else if phrases55.any (fun p => strContains answer_lower p) then
      (55, "Some relevant information but not definitive")
    else (65, "Relevant information found")

/-! ## Answer sanitization (`_generate_answer_with_claude` lines 331-346) -/

/-- Drop characters until the remainder starts with a blank line, modelling
the lookahead `(?=\n\n|\Z)` target of the lazy section body. -/
def dropUntilBlank : List Char → List Char
  | [] => []
  | '\n' :: '\n' :: rest => '\n' :: '\n' :: rest
  | _ :: rest => dropUntilBlank rest

/-- Section-heading pattern tail after the `:?\w*` junk, generic over the
base literal (`related link` or `source`):
`:?\s*\*{0,2}LITs?:?\*{0,2}\s*\n.*?(?=\n\n|\Z)` with IGNORECASE and DOTALL.
Returns the remainder after the match. -/
def sectionAfterJunk (lit s1 : List Char) : Option (List Char) :=
  let s2 := match s1 with | ':' :: r => r | _ => s1
  let s3 := s2.dropWhile pyIsSpace
  let s4 := dropStars2 s3
  if lowerEqPrefix lit s4 then
    let s5 := s4.drop lit.length
    let s6 := match s5 with
      | c :: r => if c.toLower = 's' then r else s5
      | [] => s5
    let s7 := match s6 with | ':' :: r => r | _ => s6
    let s8 := dropStars2 s7
    let w := s8.takeWhile pyIsSpace
    let rest := s8.drop w.length
    let revW := w.reverse
    let trail := revW.takeWhile (fun c => c ≠ '\n')
    if trail.length = w.length then none
    else some (dropUntilBlank (trail.reverse ++ rest))
  else none

/-- Backtrack over the `\w*` junk for the section pattern. -/
def sectionTryK (lit s0 : List Char) : Nat → Option (List Char)
  | 0 => sectionAfterJunk lit s0
  | k + 1 =>
    match sectionAfterJunk lit (s0.drop (k + 1)) with
    | some r => some r
    | none => sectionTryK lit s0 k

/-- Attempt a section-heading pattern at one position. -/
def matchSectionAt (lit l : List Char) : Option (List Char) :=
  let s0 := match l with | ':' :: r => r | _ => l
  sectionTryK lit s0 (s0.takeWhile isWordChar).length

/-- The numbered-citation pattern
`\[\d+\]\s+#[\w-]+\s+-\s+[^:]*:\s+_[^_]+_\n?`; returns the remainder. -/
def matchCitationAt (l : List Char) : Option (List Char) :=
  match l with
  | '[' :: r1 =>
    let ds := r1.takeWhile Char.isDigit
    if ds.isEmpty then none
    else
      match r1.drop ds.length with
      | ']' :: r2 =>
        let s1 := r2.takeWhile pyIsSpace
        if s1.isEmpty then none
        else
          match r2.drop s1.length with
          | '#' :: r3 =>
            let w := r3.takeWhile (fun c => isWordChar c || c = '-')
            if w.isEmpty then none
            else
              let r4 := r3.drop w.length
              let s2 := r4.takeWhile pyIsSpace
              if s2.isEmpty then none
              else
                match r4.drop s2.length with
                | '-' :: r5 =>
                  let s3 := r5.takeWhile pyIsSpace
                  if s3.isEmpty then none
                  else
                    let r6 := r5.drop s3.length
                    let nc := r6.takeWhile (fun c => c ≠ ':')
                    match r6.drop nc.length with
                    | ':' :: r7 =>
                      let s4 := r7.takeWhile pyIsSpace
                      if s4.isEmpty then none
                      else
                        match r7.drop s4.length with
                        | '_' :: r8 =>
                          let body := r8.takeWhile (fun c => c ≠ '_')
                          if body.isEmpty then none
                          else
                            match r8.drop body.length with
                            | '_' :: '\n' :: r9 => some r9
                            | '_' :: r9 => some r9
                            | _ => none
                        | _ => none
                    | _ => none
                | _ => none
          | _ => none
      | _ => none
  | _ => none

/-- Fuel-driven worker for `collapseNewlines`. -/
def cnGo : Nat → List Char → List Char
  | 0, l => l
  | _ + 1, [] => []
  | fuel + 1, '\n' :: rest =>
    let nls := rest.takeWhile (fun c => c = '\n')
    if 2 ≤ nls.length then '\n' :: '\n' :: cnGo fuel (rest.drop nls.length)
    else '\n' :: cnGo fuel rest
  | fuel + 1, c :: rest => c :: cnGo fuel rest

/-- `re.sub(r'\n{3,}', '\n\n', s)`: collapse runs of three or more newlines. -/
def collapseNewlines (l : List Char) : List Char := cnGo l.length l

/-- The post-generation cleanup applied to the raw generated answer text. -/
def sanitizeAnswerText (answer_text : String) : String :=
  let t := pyStrip (String.mk (reSubAux
    (fun s => (matchConfAt s).map (fun r => r.2.2)) answer_text.data.length answer_text.data))
  let t := String.mk (reSubAux (matchSectionAt ("related link".data)) t.data.length t.data)
  let t := String.mk (reSubAux (matchSectionAt ("source".data)) t.data.length t.data)
  let t := String.mk (reSubAux matchCitationAt t.data.length t.data)
  let t := String.mk (removeEmojiCodes t.data)
  pyStrip (String.mk (collapseNewlines t.data))

/-! ## QAService._extract_project_links -/

/-- Character class `[\w\-]`. -/
def wordDash (c : Char) : Bool := isWordChar c || c = '-'

/-- Length of `https?://` at the current position (IGNORECASE), if present. -/
def schemeLen (l : List Char) : Option Nat :=
  if lowerEqPrefix ("http".data) l then
    let after4 := l.drop 4
    match after4 with
    | c :: r =>
      if c.toLower = 's' then
        if lowerEqPrefix ("://".data) r then some 8 else none
      else if lowerEqPrefix ("://".data) after4 then some 7 else none
    | [] => none
  else none

/-- Match length of `https?://(?:www\.)?github\.com/[\w\-]+/[\w\-.]+`. -/
def matchGithubLen (l : List Char) : Option Nat := do
  let sl ← schemeLen l
  let r1 := l.drop sl
  let wl := if lowerEqPrefix ("www.".data) r1 then 4 else 0
  let r2 := r1.drop wl
  if lowerEqPrefix ("github.com/".data) r2 then
    let r3 := r2.drop 11
    let a := r3.takeWhile wordDash
    if a.isEmpty then none
    else
      match r3.drop a.length with
      | '/' :: r4 =>
        let b := r4.takeWhile (fun c => wordDash c || c = '.')
        if b.isEmpty then none
        else some (sl + wl + 11 + a.length + 1 + b.length)
      | _ => none
  else none

/-- Match length of
`https?://[\w\-]+\.(?:readthedocs\.io|github\.io)/[\w\-./]*`. -/
def matchDocs1Len (l : List Char) : Option Nat := do
  let sl ← schemeLen l
  let r1 := l.drop sl
  let d := r1.takeWhile wordDash
  if d.isEmpty then none
  else
    let r2 := r1.drop d.length
    let tldLen ←
      if lowerEqPrefix (".readthedocs.io".data) r2 then some 15
      else if lowerEqPrefix (".github.io".data) r2 then some 10
      else none
    match r2.drop tldLen with
    | '/' :: r4 =>
      let tail := r4.takeWhile (fun c => wordDash c || c = '.' || c = '/')
      some (sl + d.length + tldLen + 1 + tail.length)
    | _ => none

/-- Match length of `https?://docs?\.[\w\-]+\.[a-z]{2,}/[\w\-./]*`
(IGNORECASE makes the trailing class any letter). -/
def matchDocs2Len (l : List Char) : Option Nat := do
  let sl ← schemeLen l
  let r1 := l.drop sl
  if lowerEqPrefix ("doc".data) r1 then
    let r2 := r1.drop 3
    let s1 := match r2 with
      | c :: _ => if c.toLower = 's' then 1 else 0
      | [] => 0
    let r3 := r2.drop s1
    match r3 with
    | '.' :: r4 =>
      let dom := r4.takeWhile wordDash
      if dom.isEmpty then none
      else
        match r4.drop dom.length with
        | '.' :: r5 =>
          let tld := r5.takeWhile Char.isAlpha
          if tld.length < 2 then none
          else
            match r5.drop tld.length with
            | '/' :: r6 =>
              let tail := r6.takeWhile (fun c => wordDash c || c = '.' || c = '/')
              some (sl + 3 + s1 + 1 + dom.length + 1 + tld.length + 1 + tail.length)
            | _ => none
        | _ => none
    | _ => none
  else none

/-- Fuel-driven worker for `findAllMatches` (re.finditer, non-overlapping). -/
def findAllGo (m : List Char → Option Nat) : Nat → List Char → List (List Char)
  | 0, _ => []
  | _ + 1, [] => []
  | fuel + 1, c :: rest =>
    match m (c :: rest) with
    | some len => ((c :: rest).take len) :: findAllGo m fuel ((c :: rest).drop len)
    | none => findAllGo m fuel rest

/-- All matches of a URL pattern in a text, left to right. -/
def findAllMatches (m : List Char → Option Nat) (l : List Char) : List (List Char) :=
  findAllGo m l.length l

/-- `url.rstrip('.,!?)')`. -/
def rstripPunct (u : List Char) : List Char :=
  (u.reverse.dropWhile (fun c => c = '.' || c = ',' || c = '!' || c = '?' || c = ')')).reverse

/-- Append the URLs of one regex family, deduplicating against `seen`. -/
def collectLinks (acc : List String × List Link) (channel : String)
    (urls : List (List Char)) (ty : String) : List String × List Link :=
  urls.foldl (fun acc u =>
    let url := String.mk (rstripPunct u)
    if acc.1.contains url then acc
    else (url :: acc.1, acc.2 ++ [{ type := ty, url := url, source_channel := channel }]))
    acc

/-- `QAService._extract_project_links`: GitHub URLs, then the two
documentation URL families, deduplicated by exact URL across all messages. -/
def _extract_project_links (messages : List Msg) : List Link :=
  (messages.foldl (fun acc msg =>
    let text := msg.text.data
    let channel := msg.metadata.channel_name.getD ("unknown")
    let acc := collectLinks acc channel (findAllMatches matchGithubLen text) ("github")
    let acc := collectLinks acc channel (findAllMatches matchDocs1Len text) ("documentation")
    collectLinks acc channel (findAllMatches matchDocs2Len text) ("documentation"))
    ([], [])).2

/-! ## QAService._format_sources -/

/-- User ids collected for the batch lookup: among the first 10 messages,
those with a falsy `user_name` and a truthy `user_id`. -/
def lookupIds (messages : List Msg) : List String :=
  ((messages.take 10).filter (fun m => m.metadata.user_name.getD "" = "")).filterMap
    (fun m => match m.metadata.user_id with
      | some uid => if uid = "" then none else some uid
      | none => none)

/-- The `user_map` dictionary resulting from the batch query: defined only
on the ids that were looked up. -/
def userMapOf (lookup : String → Option String) (messages : List Msg) :
    String → Option String :=
  fun uid => if (lookupIds messages).contains uid then lookup uid else none

/-- One formatted source entry (loop body of `_format_sources`). -/
def mkSource (i : Nat) (user_map : String → Option String) (msg : Msg) : Source :=
  let metadata := msg.metadata
  let channel := if metadata.channel_name.getD "" = "" then "unknown"
    else metadata.channel_name.getD ""
  let user_id := metadata.user_id.getD ""
  let user := if metadata.user_name.getD "" = "" then (user_map user_id).getD ("unknown")
    else metadata.user_name.getD ""
  { reference_number := i,
    text := pySlice msg.text 200 ++ (if 200 < msg.text.length then "..." else ""),
    channel := channel,
    user := user,
    timestamp := metadata.timestamp.getD "",
    distance := msg.distance }

/-- Numbering worker for `_format_sources`. -/
def formatSourceListAux (user_map : String → Option String) :
    Nat → List Msg → List Source
  | _, [] => []
  | i, m :: rest => mkSource i user_map m :: formatSourceListAux user_map (i + 1) rest

/-- The sources list: top 10 messages, numbered from 1. -/
def formatSourceList (user_map : String → Option String) (messages : List Msg) :
    List Source :=
  formatSourceListAux user_map 1 (messages.take 10)

/-- `QAService._format_sources`.  The users-table round trip happens only
when some id needs lookup; it has no exception handler (`try/finally`
only), so a raised database error propagates to the caller. -/
def _format_sources (db : Except Unit (String → Option String)) (messages : List Msg) :
    Except PyErr (List Source) :=
  if (lookupIds messages).isEmpty then
    .ok (formatSourceList (fun _ => none) messages)
  else
    match db with
    | .error _ => .error .dbError
    | .ok lookup => .ok (formatSourceList (userMapOf lookup messages) messages)

/-! ## Generation paths -/

/-- The fixed system instruction of `_generate_answer_with_claude`. -/
def system_prompt : String :=
  "You are a precise Q&A assistant for Slack workspace history.\n\n**Critical Rules:**\n1. ONLY answer based on the provided messages - NO external knowledge or assumptions\n2. If messages don" ++ squo ++ "t contain the answer, say \"I don" ++ squo ++ "t have information about this in the Slack history\"\n3. NEVER make assumptions or add information not explicitly in the messages\n4. Be thorough and include ALL relevant details from the messages\n\n**How Messages Are Formatted:**\nEach message shows its channel name in brackets like [#hackathons] or [#standup].\n\n**Your Answer Must:**\n- Use inline citations with channel names: [#hackathons], [#general], [#standup]\n- Place citations immediately after relevant statements\n- Example: \"The team is working on the dashboard [#general]\"\n- Include URLs inline in your text (e.g., \"The repo is at https://github.com/...\")\n- Use *bold* for emphasis (single asterisk, not double **)\n- Use _italic_ for secondary emphasis\n- Write in clear paragraphs\n- Be comprehensive - include all relevant details, dates, names, features, URLs\n\n**What NOT to Include:**\n- Do NOT add emoji or emoji codes (:link:, :large_yellow_circle:, etc.)\n- Do NOT add a \"Confidence:\" line\n- Do NOT create a separate \"Related Links:\" section\n- Do NOT use ## headers or **double asterisks**\n- Do NOT add a \"Sources:\" section"

/-- The user prompt of `_generate_answer_with_claude`. -/
def user_prompt (question context : String) : String :=
  "Question: " ++ question ++ "\n\nSlack Message History:\n" ++ context ++
    "\n\nAnswer the question based on these messages. Be comprehensive and include all relevant details."

/-- The success answer assembled inside the `try` block. -/
def successAnswer (answer_text : String) (sources : List Source) (messages : List Msg) :
    Answer :=
  let conf := _extract_confidence answer_text
  { answer := sanitizeAnswerText answer_text,
    sources := sources,
    confidence := conf.1,
    confidence_explanation := conf.2,
    project_links := _extract_project_links messages,
    context_used := messages.length,
    model := some "claude-3-5-sonnet" }

/-- The degraded answer built by the `except` handler. -/
def degradedAnswer (e : String) (sources : List Source) (messages : List Msg) : Answer :=
  { answer := "I found relevant messages but encountered an error generating an answer: " ++ e,
    sources := sources,
    confidence := 0,
    confidence_explanation := "Error: " ++ e,
    project_links := [],
    context_used := messages.length,
    model := none }

/-- `QAService._generate_answer_with_claude`: the `try` block performs the
generation call and then (inside the returned dict) the sources lookup; on
any exception the handler rebuilds the dict, calling `_format_sources`
again — so a failing database lookup escapes even the handler. -/
def _generate_answer_with_claude (env : Env) (question context : String)
    (messages : List Msg) : Except PyErr Answer :=
  let body : Except PyErr Answer :=
    match env.gen system_prompt (user_prompt question context) with
    | .error e => .error (.genError e)
    | .ok answer_text =>
      match _format_sources env.db messages with
      | .error e => .error e
      | .ok sources => .ok (successAnswer answer_text sources messages)
  match body with
  | .ok a => .ok a
  | .error e =>
    match _format_sources env.db messages with
    | .error e2 => .error e2
    | .ok sources => .ok (degradedAnswer (errMsg e) sources messages)

/-- `require` on a dictionary key accessed with `[...]` (KeyError if absent). -/
def reqKey (o : Option String) : Except PyErr String :=
  match o with
  | some v => .ok v
  | none => .error .keyError

/-- `QAService._generate_mock_answer` (no API key configured). -/
def _generate_mock_answer (env : Env) (messages : List Msg) : Except PyErr Answer :=
  match messages with
  | [] =>
    match _format_sources env.db messages with
    | .error e => .error e
    | .ok sources =>
      .ok { answer := "I couldn" ++ squo ++ "t find relevant information to answer this question.",
            sources := sources,
            confidence := 50,
            confidence_explanation := "Mock mode - medium confidence estimate",
            project_links := _extract_project_links messages,
            context_used := messages.length,
            model := some "mock" }
  | top :: _ =>
    match reqKey top.metadata.channel_name with
    | .error e => .error e
    | .ok ch =>
      match reqKey top.metadata.user_name with
      | .error e => .error e
      | .ok un =>
        match _format_sources env.db messages with
        | .error e => .error e
        | .ok sources =>
          .ok { answer := "Based on the Slack history, here" ++ squo ++ "s what I found:\n\n" ++
                  pySlice top.text 300 ++ "...\n\n(This was mentioned in #" ++ ch ++
                  " by " ++ un ++ ")",
                sources := sources,
                confidence := 50,
                confidence_explanation := "Mock mode - medium confidence estimate",
                project_links := _extract_project_links messages,
                context_used := messages.length,
                model := some "mock" }

/-! ## answer_question -/

/-- Truthiness of the resolved `days_back` (`if days_back:`). -/
def optTruthyNat (o : Option Nat) : Bool := o.getD 0 != 0

/-- Truthiness of the resolved `channel_filter` (`if channel_filter:`). -/
def optTruthyStr (o : Option String) : Bool := o.getD "" != ""

/-- The explanatory text of the empty-result terminal answer, naming the
active filters. -/
def emptyAnswerText (days_back : Option Nat) (channel_filter : Option String) : String :=
  let filters_applied : List String :=
    (if optTruthyNat days_back then ["last " ++ toString (days_back.getD 0) ++ " days"]
     else []) ++
    (if optTruthyStr channel_filter then ["#" ++ channel_filter.getD "" ++ " channel"]
     else [])
  if filters_applied.isEmpty then
    "I couldn" ++ squo ++ "t find any relevant information in the Slack history to answer this question."
  else
    "I couldn" ++ squo ++ "t find any substantive messages in the " ++ joinAnd filters_applied ++
      ". There may be very little activity during this period, or the messages might be too short/simple to be useful (like emoji reactions or join notifications).\n\nTry:\n• Asking about a different time period\n• Asking without specifying a channel\n• Asking about a more general topic"

/-- The empty-result terminal answer of `answer_question`. -/
def emptyResultAnswer (days_back : Option Nat) (channel_filter : Option String) : Answer :=
  { answer := emptyAnswerText days_back channel_filter,
    sources := [],
    confidence := 0,
    confidence_explanation := "No relevant messages found after filtering",
    project_links := [],
    context_used := 0,
    model := none }

/-- `QAService.answer_question`. -/
def answer_question (env : Env) (svc : QAService) (question : String)
    (n_context_messages : Nat) (channel_filter : Option String)
    (days_back : Option Nat) : Except PyErr Answer :=
  let days_back := resolveDays question days_back
  let channel_filter := resolveChannel question channel_filter
  match semantic_search env svc.query_service question (n_context_messages * 3)
      channel_filter days_back with
  | .error e => .error e
  | .ok results =>
    let relevant := _filter_quality_messages results n_context_messages
    if relevant.isEmpty then .ok (emptyResultAnswer days_back channel_filter)
    else
      if env.hasClient then
        _generate_answer_with_claude env question (_build_context relevant) relevant
      else _generate_mock_answer env relevant

/-- The survivor list feeding context construction and generation, for a
non-empty workspace id: semantic search followed by the quality filter. -/
def surviving (env : Env) (ws question : String) (n : Nat)
    (channel_filter : Option String) (days_back : Option Nat) : List Msg :=
  _filter_quality_messages
    (semList env ws question (n * 3) (resolveChannel question channel_filter)
      (resolveDays question days_back)) n

/-! ## Concrete instances used by witnesses and counterexamples -/

/-- A well-formed substantive message passing the quality filter. -/
def mGood : Msg := { text := "this is a perfectly fine message about work" }

/-- The mention-spam message of end-to-end scenario 3. -/
def mMentions : Msg := { text := "<@U1> <@U2> <@U3>" }

/-- A survivor whose metadata carries a present-but-empty channel name. -/
def mC2 : Msg :=
  { text := "the quarterly report is ready",
    metadata := { channel_name := some "", user_name := some "alice" } }

/-- Eleven identical substantive survivors. -/
def ms11 : List Msg := List.replicate 11 mGood

/-- A survivor whose author name is missing, forcing the users-table lookup. -/
def mC3 : Msg :=
  { text := "the build was fixed by updating the lockfile",
    metadata := { channel_name := some "general", user_id := some "U9",
                  timestamp := some "100" } }

/-- Environment with a failing users-table lookup and a healthy generator. -/
def envC3 : Env :=
  { query := fun _ _ _ _ => [mC3],
    parse := fun _ => none,
    now := 0,
    db := .error (),
    gen := fun _ _ => .ok ("The build was fixed by updating the lockfile."),
    hasClient := true }

/-- The QAService produced by constructing with workspace `W1`. -/
def qaW1 : QAService := { workspace_id := "W1", query_service := { workspace_id := "W1" } }

/-- Question that triggers neither the time nor the channel inference. -/
def qC3 : String := "Who fixed the build?"

/-- A message timestamped ten days before `envC7.now`. -/
def oldMsg : Msg :=
  { text := "we deployed the new release last sprint",
    metadata := { channel_name := some "general", user_name := some "bob",
                  timestamp := some "100" } }

/-- Environment whose vector store returns only `oldMsg`, whose clock is at
epoch 2000000000 and which parses timestamp `100` to ten days earlier. -/
def envC7 : Env :=
  { query := fun _ _ _ _ => [oldMsg],
    parse := fun s => if s = "100" then some (2000000000 - 10 * 86400) else none,
    now := 2000000000,
    db := .ok (fun _ => none),
    gen := fun _ _ => .ok (""),
    hasClient := true }

/-- The scenario-2 question containing the substring `yesterday`. -/
def qYesterday : String := "What did the team work on yesterday?"

/-- Environment whose vector store returns no results at all. -/
def envEmpty : Env :=
  { query := fun _ _ _ _ => [],
    parse := fun _ => none,
    now := 0,
    db := .ok (fun _ => none),
    gen := fun _ _ => .ok (""),
    hasClient := true }

/-- Question triggering both the 2-day and the `#general` inference. -/
def qC5 : String := "What happened yesterday in the general channel?"

/-- A survivor with a present author name (no users-table lookup needed). -/
def mC4 : Msg :=
  { text := "the migration plan was approved by the team",
    metadata := { channel_name := some "general", user_name := some "carol",
                  timestamp := some "100" } }

/-- Environment whose generation call raises while everything else works. -/
def envC4 : Env :=
  { query := fun _ _ _ _ => [mC4],
    parse := fun _ => none,
    now := 0,
    db := .ok (fun _ => none),
    gen := fun _ _ => .error ("connection timed out"),
    hasClient := true }

/-- The scenario-4 generated body with no confidence line. -/
def imNotSure : String := "I" ++ squo ++ "m not sure what you mean"

/-- A generated text whose confidence line carries an out-of-range value. -/
def confOver : String := "Confidence: 150% - sure"

/-! ## Helper lemmas -/

/-- Strings with equal code-point lists are equal. -/
theorem stringExt {a b : String} (h : a.data = b.data) : a = b := by
  cases a; cases b; exact congrArg String.mk h

/-- A middle factor is found by `subOccurs`. -/
theorem subOccurs_append (pre n post : List Char) :
    subOccurs n (pre ++ (n ++ post)) = true := by
  induction pre with
  | nil =>
    simp only [List.nil_append]
    cases n with
    | nil =>
      cases post with
      | nil => rfl
      | cons c cs => simp [subOccurs, List.isPrefixOf]
    | cons a as =>
      have h : (a :: as).isPrefixOf ((a :: as) ++ post) = true := by
        rw [List.isPrefixOf_iff_prefix]; exact List.prefix_append _ _
      show subOccurs (a :: as) (a :: (as ++ post)) = true
      simp only [subOccurs]
      exact Bool.or_eq_true_iff.mpr (Or.inl h)
  | cons c pre ih =>
    show subOccurs n (c :: (pre ++ (n ++ post))) = true
    simp only [subOccurs]
    exact Bool.or_eq_true_iff.mpr (Or.inr ih)

/-- Python `t in x + t + y` holds. -/
theorem strContains_middle (x t y : String) : strContains (x ++ t ++ y) t = true := by
  show subOccurs t.data (x ++ t ++ y).data = true
  rw [String.data_append, String.data_append, List.append_assoc]
  exact subOccurs_append x.data t.data y.data

/-- Last-write-wins: after `d[k] = v`, looking up `k` yields `v`, whatever
value the caller had stored under `k`. -/
theorem dictGet_dictSet_self (d : List (String × String)) (k v : String) :
    dictGet (dictSet d k v) k = some v := by
  induction d with
  | nil => simp [dictSet, dictGet]
  | cons p t ih =>
    by_cases hp : p.1 == k
    · have hany : (p :: t).any (fun q => q.1 == k) = true := by
        simp [List.any_cons, hp]
      rw [dictSet, if_pos hany]
      simp only [List.map_cons, if_pos hp]
      simp [dictGet, List.find?]
    · by_cases hany : t.any (fun q => q.1 == k)
      · have hall : (p :: t).any (fun q => q.1 == k) = true := by
          simp [List.any_cons, hany]
        rw [dictSet, if_pos hall]
        simp only [List.map_cons, if_neg hp]
        rw [dictGet] at ih ⊢
        rw [List.find?_cons_of_neg _ (by simpa using hp)]
        rw [dictSet, if_pos hany] at ih
        exact ih
      · have hanyf : t.any (fun q => q.1 == k) = false := by
          revert hany; cases t.any (fun q => q.1 == k) <;> simp
        have hpf : (p.1 == k) = false := by
          revert hp; cases p.1 == k <;> simp
        have hall : (p :: t).any (fun q => q.1 == k) = false := by
          simp [List.any_cons, hanyf, hpf]
        rw [dictSet, if_neg (by simp [hall])]
        rw [dictGet, List.cons_append, List.find?_cons_of_neg _ (by simp [hpf])]
        rw [dictGet] at ih
        rw [dictSet, if_neg hany] at ih
        exact ih

/-- Loop characterization of the quality filter: it returns the kept
candidates in order, truncated after `limit - count` survivors — but always
at least one, because the `break` only fires after an append. -/
theorem filterQualityAux_eq (limit : Nat) (msgs : List Msg) (count : Nat) :
    filterQualityAux limit msgs count = (msgs.filter keepMsg).take (max (limit - count) 1) := by
  induction msgs generalizing count with
  | nil => simp [filterQualityAux]
  | cons m rest ih =>
    by_cases hk : keepMsg m
    · by_cases hstop : limit ≤ count + 1
      · have h1 : max (limit - count) 1 = 1 := by omega
        rw [filterQualityAux, if_pos hk, if_pos hstop]
        rw [List.filter_cons_of_pos hk, h1]
        rfl
      · have h2 : max (limit - count) 1 = limit - count := by omega
        have h3 : limit - count = (limit - (count + 1)) + 1 := by omega
        have h4 : max (limit - (count + 1)) 1 = limit - (count + 1) := by omega
        rw [filterQualityAux, if_pos hk, if_neg hstop]
        rw [List.filter_cons_of_pos hk, h2, h3, List.take_succ_cons]
        rw [ih (count + 1), h4]
    · rw [filterQualityAux, if_neg hk, List.filter_cons_of_neg hk]
      exact ih count

/-- `_filter_quality_messages` equals filtering then truncating to
`max limit 1` entries. -/
theorem filter_quality_eq (messages : List Msg) (limit : Nat) :
    _filter_quality_messages messages limit =
      (messages.filter keepMsg).take (max limit 1) := by
  rw [_filter_quality_messages, filterQualityAux_eq, Nat.sub_zero]

/-- Indexing the numbered source list. -/
theorem formatSourceListAux_getElem? (user_map : String → Option String)
    (msgs : List Msg) (i k : Nat) :
    (formatSourceListAux user_map i msgs)[k]? =
      msgs[k]?.map (fun m => mkSource (i + k) user_map m) := by
  induction msgs generalizing i k with
  | nil => simp [formatSourceListAux]
  | cons m t ih =>
    cases k with
    | zero => simp [formatSourceListAux]
    | succ k =>
      have harith : i + 1 + k = i + (k + 1) := by omega
      simp only [formatSourceListAux, List.getElem?_cons_succ]
      rw [ih (i + 1) k, harith]

/-- First-match characterization of `List.find?`. -/
theorem find?_first {α : Type} (l : List α) (p : α → Bool) (i : Nat) (x : α)
    (hget : l[i]? = some x) (hx : p x = true)
    (hbefore : ∀ j, j < i → ∀ y, l[j]? = some y → p y = false) :
    l.find? p = some x := by
  induction l generalizing i with
  | nil => simp at hget
  | cons a t ih =>
    cases i with
    | zero =>
      simp only [List.getElem?_cons_zero, Option.some.injEq] at hget
      subst hget
      exact List.find?_cons_of_pos _ hx
    | succ i =>
      have ha : p a = false := hbefore 0 (by omega) a (by simp)
      rw [List.find?_cons_of_neg _ (by simp [ha])]
      exact ih i (by simpa using hget)
        (fun j hj y hy => hbefore (j + 1) (by omega) y (by simpa using hy))

/-- The `where_filter if where_filter else None` round trip is the identity. -/
theorem optionalWf (wf : List (String × String)) :
    ((if wf.isEmpty then none else some wf).getD [] : List (String × String)) = wf := by
  cases wf <;> simp

/-- With a non-empty workspace id, `semantic_search` succeeds and returns
exactly `semList`. -/
theorem semantic_search_ok (env : Env) (qs : QueryService) (q : String) (n : Nat)
    (cf : Option String) (d : Option Nat) (h : qs.workspace_id ≠ "") :
    semantic_search env qs q n cf d = .ok (semList env qs.workspace_id q n cf d) := by
  rw [semantic_search, search_messages]
  simp only [Option.getD_some, if_neg h, optionalWf, semList]
  split <;> rfl

/-- A successful users-table round trip makes `_format_sources` total. -/
theorem format_sources_ok (lookup : String → Option String) (messages : List Msg) :
    _format_sources (.ok lookup) messages =
      .ok (formatSourceList (userMapOf lookup messages) messages) := by
  rw [_format_sources]
  by_cases hids : (lookupIds messages).isEmpty
  · rw [if_pos hids]
    have hnil : lookupIds messages = [] := List.isEmpty_iff.mp hids
    have hmap : userMapOf lookup messages = fun _ => none := by
      funext uid; simp [userMapOf, hnil]
    rw [hmap]
  · rw [if_neg hids]

/-- With a non-empty workspace id, `answer_question` reduces to the
survivor-driven branch structure. -/
theorem answer_question_eq (env : Env) (svc : QAService) (question : String)
    (n : Nat) (cf : Option String) (d : Option Nat)
    (h : svc.query_service.workspace_id ≠ "") :
    answer_question env svc question n cf d =
      (if (surviving env svc.query_service.workspace_id question n cf d).isEmpty then
        .ok (emptyResultAnswer (resolveDays question d) (resolveChannel question cf))
      else if env.hasClient then
        _generate_answer_with_claude env question
          (_build_context (surviving env svc.query_service.workspace_id question n cf d))
          (surviving env svc.query_service.workspace_id question n cf d)
      else
        _generate_mock_answer env
          (surviving env svc.query_service.workspace_id question n cf d)) := by
  rw [answer_question, surviving]
  rw [semantic_search_ok env svc.query_service question (n * 3)
    (resolveChannel question cf) (resolveDays question d) h]

/-- The three drop conditions characterizing a surviving candidate: kept
iff the trimmed text has at least 10 characters, no system-notification
substring occurs, and it is not the case that there are words and more
than half of them are raw mention markers. -/
theorem keepMsg_iff (m : Msg) :
    keepMsg m = true ↔
      (10 ≤ (pyStrip (pyLower m.text)).length ∧
       (∀ p ∈ skip_patterns, ¬ strContains (pyLower m.text) p = true) ∧
       (0 < wordCount (pyLower m.text).data →
         2 * countOcc mentionNeedle (pyLower m.text).data ≤ wordCount (pyLower m.text).data)) := by
  simp only [keepMsg, Bool.and_eq_true, Bool.not_eq_true', Bool.and_eq_false_iff,
    decide_eq_false_iff_not, Nat.not_lt, List.any_eq_false]
  constructor
  · rintro ⟨⟨h1, h2⟩, h3 | h3⟩
    · exact ⟨h1, h2, fun hpos => absurd hpos (by omega)⟩
    · exact ⟨h1, h2, fun _ => h3⟩
  · rintro ⟨h1, h2, h3⟩
    by_cases hpos : 0 < wordCount (pyLower m.text).data
    · exact ⟨⟨h1, h2⟩, Or.inr (h3 hpos)⟩
    · exact ⟨⟨h1, h2⟩, Or.inl (by omega)⟩

/-- Claim C10: quality-filter idempotence — for every message list and every
limit, applying `_filter_quality_messages` to its own output with the same
limit returns that output unchanged. -/
theorem C10_quality_filter_idempotent (messages : List Msg) (limit : Nat) :
    _filter_quality_messages (_filter_quality_messages messages limit) limit =
      _filter_quality_messages messages limit := by
  rw [filter_quality_eq messages limit, filter_quality_eq]
  have hsub : ∀ x ∈ (messages.filter keepMsg).take (max limit 1), keepMsg x = true :=
    fun x hx => (List.mem_filter.mp (List.mem_of_mem_take hx)).2
  rw [List.filter_eq_self.mpr hsub, List.take_take, min_self]

/-- Claim C6 counterexample: with limit 0 the filter still returns one
survivor — the stop check runs only after an append — so it does not stop
once `limit` survivors are collected as the claim states. -/
theorem C6_counterexample :
    keepMsg mGood = true ∧
    _filter_quality_messages [mGood] 0 = [mGood] ∧
    0 < (_filter_quality_messages [mGood] 0).length := by
  exact ⟨by decide, by decide, by decide⟩

/-- Claim C6 (amended): the filter drops exactly the candidates failing one
of the three quality conditions, keeps survivors in input order and stops
once `max limit 1` survivors are collected (the break fires only after an
append, so limit 0 still yields up to one survivor); the pure-mention
message of scenario 3 is dropped (3 mentions over 3 words, ratio 1 > 0.5). -/
theorem C6_quality_filter_amended :
    (∀ messages limit, _filter_quality_messages messages limit =
        (messages.filter keepMsg).take (max limit 1)) ∧
    (∀ m : Msg, keepMsg m = true ↔
      (10 ≤ (pyStrip (pyLower m.text)).length ∧
       (∀ p ∈ skip_patterns, ¬ strContains (pyLower m.text) p = true) ∧
       (0 < wordCount (pyLower m.text).data →
         2 * countOcc mentionNeedle (pyLower m.text).data ≤ wordCount (pyLower m.text).data))) ∧
    countOcc mentionNeedle (pyLower mMentions.text).data = 3 ∧
    wordCount (pyLower mMentions.text).data = 3 ∧
    _filter_quality_messages [mMentions] 5 = [] := by
  exact ⟨filter_quality_eq, keepMsg_iff, by decide, by decide, by decide⟩

/-- Claim C6 amended witness: the characterization evaluated at concrete
inputs — the mention-spam candidate is dropped while a substantive one
survives. -/
theorem C6_quality_filter_amended_witness :
    _filter_quality_messages [mMentions, mGood] 1 = [mGood] ∧ keepMsg mGood = true := by
  refine ⟨?_, ?_⟩
  · rw [C6_quality_filter_amended.1 [mMentions, mGood] 1]
    decide
  · exact (C6_quality_filter_amended.2.1 mGood).mpr (by decide)

/-- Claim C1: tenant-isolation enforcement — a `None` or empty workspace id
makes `search_messages` (and the service constructors) fail with the
isolation `ValueError`; otherwise the effective metadata filter sent to the
vector store carries `workspace_id = w`, overwriting any caller-supplied
value for that key, and `semantic_search` goes through the same choke
point. -/
theorem C1_tenant_isolation (env : Env) (q : String) (n : Nat)
    (wf : Option (List (String × String))) :
    (∀ ws : Option String, ws.getD "" = "" →
        search_messages env ws q n wf = .error (.valueError isolationMsgChroma)) ∧
    (∀ w : String, w ≠ "" →
        dictGet (dictSet (wf.getD []) ("workspace_id") w) ("workspace_id") = some w ∧
        search_messages env (some w) q n wf =
          .ok (env.query w q n (dictSet (wf.getD []) ("workspace_id") w))) ∧
    (∀ qs : QueryService, qs.workspace_id ≠ "" → ∀ cf d,
        semantic_search env qs q n cf d = .ok (semList env qs.workspace_id q n cf d)) ∧
    (∀ cf d, semantic_search env { workspace_id := "" } q n cf d =
        .error (.valueError isolationMsgChroma)) ∧
    QueryService.init none = .error (.valueError isolationMsgQuery) ∧
    QueryService.init (some "") = .error (.valueError isolationMsgQuery) ∧
    QAService.init none = .error (.valueError isolationMsgQA) ∧
    QAService.init (some "") = .error (.valueError isolationMsgQA) := by
  refine ⟨?_, ?_, ?_, ?_, rfl, rfl, rfl, rfl⟩
  · intro ws hws
    rw [search_messages, if_pos hws]
  · intro w hw
    refine ⟨dictGet_dictSet_self _ _ _, ?_⟩
    rw [search_messages]
    simp [hw]
  · intro qs hqs cf d
    exact semantic_search_ok env qs q n cf d hqs
  · intro cf d
    rw [semantic_search, search_messages]
    simp

/-- Claim C1 witness: the isolation behaviour at concrete inputs — both
falsy forms fail, and a caller-supplied `workspace_id` entry is
overwritten by the enforced one. -/
theorem C1_tenant_isolation_witness :
    search_messages envEmpty none ("q") 5 none = .error (.valueError isolationMsgChroma) ∧
    search_messages envEmpty (some "") ("q") 5 none = .error (.valueError isolationMsgChroma) ∧
    dictGet (dictSet ([("workspace_id", "EVIL")]) ("workspace_id") ("W1")) ("workspace_id") =
      some ("W1") ∧
    QAService.init (some "") = .error (.valueError isolationMsgQA) := by
  refine ⟨(C1_tenant_isolation envEmpty ("q") 5 none).1 none rfl,
    (C1_tenant_isolation envEmpty ("q") 5 none).1 (some "") rfl, ?_,
    (C1_tenant_isolation envEmpty ("q") 5 none).2.2.2.2.2.2.2⟩
  have h := ((C1_tenant_isolation envEmpty ("q") 5
    (some [("workspace_id", "EVIL")])).2.1 ("W1") (by decide)).1
  simpa using h

/-- Claim C7: time-filter inference and application — the first phrase of
the ordered table occurring in the lowercased question wins and no match
yields no filter; with an active d-day filter every surviving result parses
to a time strictly after now minus d days; concretely, a question
containing `yesterday` infers a 2-day lookback, and a message timestamped
ten days ago is excluded by it. -/
theorem C7_time_filter :
    (∀ (q p : String) (i d : Nat), time_patterns[i]? = some (p, d) →
        strContains (pyLower q) p = true →
        (∀ (j : Nat), j < i → ∀ (p2 : String) (d2 : Nat), time_patterns[j]? = some (p2, d2) →
          strContains (pyLower q) p2 = false) →
        _detect_time_filter q = some d) ∧
    (∀ q, (∀ pd ∈ time_patterns, strContains (pyLower q) pd.1 = false) →
        _detect_time_filter q = none) ∧
    _detect_time_filter qYesterday = some 2 ∧
    (∀ env ws q n cf d r, d ≠ 0 →
        r ∈ semList env ws q n cf (some d) →
        env.now - (d : Int) * 86400 <
          _parse_timestamp env.parse (r.metadata.timestamp.getD "")) ∧
    envC7.query ("W1") qYesterday 30 (dictSet [] ("workspace_id") ("W1")) = [oldMsg] ∧
    _parse_timestamp envC7.parse (oldMsg.metadata.timestamp.getD "") =
      envC7.now - 10 * 86400 ∧
    semList envC7 ("W1") qYesterday 30 none (some 2) = [] := by
  refine ⟨?_, ?_, by decide, ?_, by decide, by decide, by decide⟩
  · intro q p i d hget hp hbefore
    rw [_detect_time_filter,
      find?_first time_patterns _ i (p, d) hget hp
        (fun j hj y hy => hbefore j hj y.1 y.2 (by simpa using hy))]
    rfl
  · intro q hnone
    rw [_detect_time_filter, List.find?_eq_none.mpr
      (fun pd hpd => by simp [hnone pd hpd])]
    rfl
  · intro env ws q n cf d r hd hr
    rw [semList] at hr
    rw [if_pos (by simpa using hd)] at hr
    have hm := List.mem_filter.mp hr
    have := of_decide_eq_true hm.2
    simpa using this

/-- Claim C7 witness: the first-match rule applied at concrete questions —
`recent` (table position 8) fires with 7 days, and the scenario-2 question
infers 2 days. -/
theorem C7_time_filter_witness :
    _detect_time_filter ("show recent updates") = some 7 ∧
    _detect_time_filter qYesterday = some 2 := by
  have hdec : ∀ j, j < 8 →
      (time_patterns[j]?.map
        (fun pd => strContains (pyLower ("show recent updates")) pd.1)).getD false = false := by
    decide
  refine ⟨C7_time_filter.1 ("show recent updates") ("recent") 8 7 (by decide) (by decide)
    ?_, C7_time_filter.2.2.1⟩
  intro j hj p2 d2 hget
  have h2 := hdec j hj
  rw [hget] at h2
  simpa using h2

/-- With no parseable confidence line, `_extract_confidence` reduces to the
ordered keyword-bucket cascade. -/
theorem extract_confidence_no_match (t : String) (h : reSearchConf t.data = none) :
    _extract_confidence t =
      (if phrases10.any (fun p => strContains (pyLower t) p) then
        (10, "No relevant information found")
      else if phrases30.any (fun p => strContains (pyLower t) p) then
        (30, "Limited or unclear information")
      else if phrases55.any (fun p => strContains (pyLower t) p) then
        (55, "Some relevant information but not definitive")
      else (65, "Relevant information found")) := by
  rw [_extract_confidence, h]

/-- Claim C8: confidence fallback heuristic — when no confidence line
parses, the three phrase buckets are tried in order (10, then 30, then 55)
with default 65. -/
theorem C8_confidence_fallback (t : String) (h : reSearchConf t.data = none) :
    ((phrases10.any (fun p => strContains (pyLower t) p)) = true →
      _extract_confidence t = (10, "No relevant information found")) ∧
    ((phrases10.any (fun p => strContains (pyLower t) p)) = false →
      (phrases30.any (fun p => strContains (pyLower t) p)) = true →
      _extract_confidence t = (30, "Limited or unclear information")) ∧
    ((phrases10.any (fun p => strContains (pyLower t) p)) = false →
      (phrases30.any (fun p => strContains (pyLower t) p)) = false →
      (phrases55.any (fun p => strContains (pyLower t) p)) = true →
      _extract_confidence t = (55, "Some relevant information but not definitive")) ∧
    ((phrases10.any (fun p => strContains (pyLower t) p)) = false →
      (phrases30.any (fun p => strContains (pyLower t) p)) = false →
      (phrases55.any (fun p => strContains (pyLower t) p)) = false →
      _extract_confidence t = (65, "Relevant information found")) := by
  refine ⟨?_, ?_, ?_, ?_⟩
  · intro h10
    rw [extract_confidence_no_match t h, if_pos h10]
  · intro h10 h30
    rw [extract_confidence_no_match t h]
    simp only [h10, Bool.false_eq_true, if_false, if_pos h30]
  · intro h10 h30 h55
    rw [extract_confidence_no_match t h]
    simp only [h10, h30, Bool.false_eq_true, if_false, if_pos h55]
  · intro h10 h30 h55
    rw [extract_confidence_no_match t h]
    simp only [h10, h30, h55, Bool.false_eq_true, if_false]

/-- Claim C8 witness: scenario 4 — the body `I'm not sure what you mean`
has no confidence line and lands in the 30 bucket. -/
theorem C8_confidence_fallback_witness :
    _extract_confidence imNotSure = (30, "Limited or unclear information") :=
  (C8_confidence_fallback imNotSure (by decide)).2.1 (by decide) (by decide)

/-- Claim C9 counterexample: the parsed `Confidence: N%` value is not
clamped — the text `Confidence: 150% - sure` yields confidence 150, outside
[0, 100]. -/
theorem C9_counterexample :
    reSearchConf confOver.data = some (150, ("sure").data) ∧
    _extract_confidence confOver = (150, "sure") ∧
    ¬ (_extract_confidence confOver).1 ≤ 100 := by
  exact ⟨by decide, by decide, by decide⟩

/-- Claim C9 (amended): the confidence is a natural number; it is within
[0, 100] whenever no confidence line parses (the fallback buckets are 10,
30, 55, 65), and when a line parses it equals the line's N unclamped, so it
can exceed 100 exactly when the generator emits such a value. -/
theorem C9_confidence_bounds_amended (t : String) :
    (reSearchConf t.data = none → (_extract_confidence t).1 ≤ 100) ∧
    (∀ n g2, reSearchConf t.data = some (n, g2) → (_extract_confidence t).1 = n) := by
  constructor
  · intro h
    rw [extract_confidence_no_match t h]
    split
    · decide
    · split
      · decide
      · split <;> decide
  · intro n g2 h
    rw [_extract_confidence, h]

/-- Claim C9 amended witness: a text without a confidence line stays within
bounds. -/
theorem C9_confidence_bounds_amended_witness :
    (_extract_confidence ("hello there, all good")).1 ≤ 100 :=
  (C9_confidence_bounds_amended ("hello there, all good")).1 (by decide)

/-- Claim C2 counterexample: a surviving message whose metadata channel name
is present but empty renders its context block with channel `''` while its
source entry shows `unknown`; and with eleven survivors (legal at
desired_context_size 11) the context has eleven blocks while the sources
list stops at reference number 10, so no entry with reference number 11
exists. -/
theorem C2_counterexample :
    _filter_quality_messages [mC2] 1 = [mC2] ∧
    _build_context [mC2] = "[#] (from alice):\nthe quarterly report is ready" ∧
    contextChannel mC2 = "" ∧
    _format_sources (.ok (fun _ => none)) [mC2] =
      .ok [{ reference_number := 1, text := "the quarterly report is ready",
             channel := "unknown", user := "alice", timestamp := "", distance := none }] ∧
    ("" : String) ≠ "unknown" ∧
    _filter_quality_messages ms11 11 = ms11 ∧
    (ms11.map contextPart).length = 11 ∧
    (match _format_sources (.ok (fun _ => none)) ms11 with
      | .ok srcs => srcs.map (fun s => s.reference_number)
      | .error _ => []) = [1, 2, 3, 4, 5, 6, 7, 8, 9, 10] := by
  exact ⟨by decide, by decide, by decide, by rfl, by decide, by decide, by decide,
    by rfl⟩

/-- Claim C2 (amended): for every survivor list and every N between 1 and
min(survivor count, 10), the Nth context block and the source entry with
reference number N are built from the same message: the source text is that
message's text truncated to 200 characters with an ellipsis if longer; the
source channel agrees with the block's channel unless the metadata channel
name is present but empty; the source author agrees with the block's author
when the metadata author name is non-empty, and also when it is absent and
the batch author lookup misses (both render `unknown`). -/
theorem C2_citation_ordering_amended (db : String → Option String) (ms : List Msg)
    (N : Nat) (h1 : 1 ≤ N) (h2 : N ≤ min ms.length 10) :
    ∃ msg srcs,
      ms[N - 1]? = some msg ∧
      (ms.map contextPart)[N - 1]? = some (contextPart msg) ∧
      _format_sources (.ok db) ms = .ok srcs ∧
      srcs[N - 1]? = some (mkSource N (userMapOf db ms) msg) ∧
      (mkSource N (userMapOf db ms) msg).reference_number = N ∧
      (mkSource N (userMapOf db ms) msg).text =
        pySlice msg.text 200 ++ (if 200 < msg.text.length then "..." else "") ∧
      (msg.metadata.channel_name ≠ some "" →
        (mkSource N (userMapOf db ms) msg).channel = contextChannel msg) ∧
      (∀ u, msg.metadata.user_name = some u → u ≠ "" →
        (mkSource N (userMapOf db ms) msg).user = contextUser msg) ∧
      (msg.metadata.user_name = none →
        userMapOf db ms (msg.metadata.user_id.getD "") = none →
        (mkSource N (userMapOf db ms) msg).user = contextUser msg) := by
  have hlen : N - 1 < ms.length := by omega
  have hten : N - 1 < 10 := by omega
  refine ⟨ms.get ⟨N - 1, hlen⟩, formatSourceList (userMapOf db ms) ms,
    List.getElem?_eq_getElem hlen, ?_, format_sources_ok db ms, ?_, rfl, rfl, ?_, ?_, ?_⟩
  · rw [List.getElem?_map, List.getElem?_eq_getElem hlen]
    rfl
  · rw [formatSourceList, formatSourceListAux_getElem?,
      List.getElem?_take_of_lt hten, List.getElem?_eq_getElem hlen]
    have : 1 + (N - 1) = N := by omega
    rw [this]
    rfl
  · intro hch
    rw [mkSource, contextChannel]
    cases hcn : ms.get ⟨N - 1, hlen⟩ |>.metadata.channel_name with
    | none => simp
    | some c =>
      have hc : c ≠ "" := fun he => hch (by rw [hcn, he])
      simp [hc]
  · intro u hu hune
    rw [mkSource, contextUser, hu]
    simp [hune]
  · intro hu hmiss
    rw [List.get_eq_getElem] at hmiss
    rw [mkSource, contextUser, hu]
    simp [hmiss]

/-- Claim C2 amended witness: the correspondence evaluated at a concrete
two-survivor list for N = 2. -/
theorem C2_citation_ordering_amended_witness :
    ∃ msg srcs,
      ([mC4, mC2] : List Msg)[1]? = some msg ∧
      (([mC4, mC2] : List Msg).map contextPart)[1]? = some (contextPart msg) ∧
      _format_sources (.ok (fun _ => none)) [mC4, mC2] = .ok srcs ∧
      srcs[1]? = some (mkSource 2 (userMapOf (fun _ => none) [mC4, mC2]) msg) ∧
      (mkSource 2 (userMapOf (fun _ => none) [mC4, mC2]) msg).reference_number = 2 ∧
      (mkSource 2 (userMapOf (fun _ => none) [mC4, mC2]) msg).text =
        pySlice msg.text 200 ++ (if 200 < msg.text.length then "..." else "") ∧
      (msg.metadata.channel_name ≠ some "" →
        (mkSource 2 (userMapOf (fun _ => none) [mC4, mC2]) msg).channel = contextChannel msg) ∧
      (∀ u, msg.metadata.user_name = some u → u ≠ "" →
        (mkSource 2 (userMapOf (fun _ => none) [mC4, mC2]) msg).user = contextUser msg) ∧
      (msg.metadata.user_name = none →
        userMapOf (fun _ => none) [mC4, mC2] (msg.metadata.user_id.getD "") = none →
        (mkSource 2 (userMapOf (fun _ => none) [mC4, mC2]) msg).user = contextUser msg) :=
  C2_citation_ordering_amended (fun _ => none) [mC4, mC2] 2 (by decide) (by decide)

/-- Claim C3 counterexample: with a properly constructed service, a healthy
generator and one survivor lacking an author name, a raised users-table
exception during author-name resolution propagates out of `answer_question`
as a database error — not the isolation error — so the lookup failure does
abort the whole answer. -/
theorem C3_counterexample :
    QAService.init (some ("W1")) = .ok qaW1 ∧
    surviving envC3 ("W1") qC3 10 none none = [mC3] ∧
    lookupIds [mC3] = ["U9"] ∧
    envC3.db = .error () ∧
    answer_question envC3 qaW1 qC3 10 none none = .error .dbError ∧
    (∀ m : String, PyErr.dbError ≠ .valueError m) := by
  refine ⟨by rfl, by decide, by decide, rfl, by rfl, ?_⟩
  intro m h
  exact PyErr.noConfusion h

/-- Claim C3 (amended): construction fails with the isolation error exactly
on a falsy workspace id; with the generation client configured and a
users-table round trip that does not raise, `answer_question` always
returns an Answer (structurally complete by construction: all six fields
are present on every path); an author-name lookup miss falls back to the
placeholder `unknown`, and a name already present in vector-store metadata
is used as-is — but a raised lookup exception aborts the answer (the
counterexample), which the original claim ruled out. -/
theorem C3_structural_answer_amended (env : Env) (ws : Option String) (svc : QAService)
    (question : String) (n : Nat) (cf : Option String) (d : Option Nat)
    (lookup : String → Option String)
    (hsvc : QAService.init ws = .ok svc)
    (hcl : env.hasClient = true)
    (hdb : env.db = .ok lookup) :
    (∃ a, answer_question env svc question n cf d = .ok a) ∧
    (∀ w : Option String, w.getD "" = "" →
        QAService.init w = .error (.valueError isolationMsgQA)) ∧
    (∀ (i : Nat) (umap : String → Option String) (msg : Msg),
        msg.metadata.user_name.getD "" = "" →
        umap (msg.metadata.user_id.getD "") = none →
        (mkSource i umap msg).user = "unknown") ∧
    (∀ (i : Nat) (umap : String → Option String) (msg : Msg) (u : String),
        msg.metadata.user_name = some u → u ≠ "" →
        (mkSource i umap msg).user = u) := by
  have hne : ws.getD "" ≠ "" := by
    intro h0
    rw [QAService.init, if_pos h0] at hsvc
    exact Except.noConfusion hsvc
  have hsvc2 : svc = { workspace_id := ws.getD "", query_service := { workspace_id := ws.getD "" } } := by
    rw [QAService.init, if_neg hne, QueryService.init, if_neg hne] at hsvc
    exact (Except.ok.inj hsvc).symm
  have hws : svc.query_service.workspace_id ≠ "" := by
    rw [hsvc2]
    exact hne
  refine ⟨?_, ?_, ?_, ?_⟩
  · rw [answer_question_eq env svc question n cf d hws]
    by_cases hemp :
        (surviving env svc.query_service.workspace_id question n cf d).isEmpty
    · rw [if_pos hemp]
      exact ⟨_, rfl⟩
    · rw [if_neg hemp, hcl, if_pos rfl, _generate_answer_with_claude]
      cases hg : env.gen system_prompt
          (user_prompt question
            (_build_context (surviving env svc.query_service.workspace_id question n cf d))) with
      | ok t =>
        rw [hdb, format_sources_ok]
        exact ⟨_, rfl⟩
      | error e =>
        rw [hdb, format_sources_ok]
        exact ⟨_, rfl⟩
  · intro w hw
    rw [QAService.init, if_pos hw]
  · intro i umap msg hname hmiss
    rw [mkSource]
    simp [hname, hmiss]
  · intro i umap msg u hu hune
    rw [mkSource, hu]
    simp [hune]

/-- Claim C3 amended witness: a concrete constructed service with a healthy
users table returns an answer. -/
theorem C3_structural_answer_amended_witness :
    ∃ a, answer_question envC7 qaW1 qC3 10 none none = .ok a :=
  (C3_structural_answer_amended envC7 (some ("W1")) qaW1 qC3 10 none none
    (fun _ => none) rfl rfl rfl).1

/-- Claim C4: generation-failure degradation — when the generation call
raises and the sources formatting succeeds, `answer_question` returns the
degraded answer: error text, the already-retrieved sources, confidence 0,
the error recorded in the explanation, and empty project links. -/
theorem C4_generation_failure_degrades (env : Env) (svc : QAService) (question : String)
    (n : Nat) (cf : Option String) (d : Option Nat) (e : String) (srcs : List Source)
    (hws : svc.query_service.workspace_id ≠ "")
    (hcl : env.hasClient = true)
    (hgen : ∀ s u, env.gen s u = .error e)
    (hne : (surviving env svc.query_service.workspace_id question n cf d).isEmpty = false)
    (hfmt : _format_sources env.db
      (surviving env svc.query_service.workspace_id question n cf d) = .ok srcs) :
    answer_question env svc question n cf d = .ok
      { answer := "I found relevant messages but encountered an error generating an answer: " ++ e,
        sources := srcs,
        confidence := 0,
        confidence_explanation := "Error: " ++ e,
        project_links := [],
        context_used :=
          (surviving env svc.query_service.workspace_id question n cf d).length,
        model := none } := by
  rw [answer_question_eq env svc question n cf d hws,
    if_neg (by simp [hne]), hcl, if_pos rfl, _generate_answer_with_claude, hgen, hfmt]
  rfl

/-- Claim C4 witness: the degradation at a concrete failing generator. -/
theorem C4_generation_failure_degrades_witness :
    answer_question envC4 qaW1 qC3 10 none none = .ok
      { answer := "I found relevant messages but encountered an error generating an answer: connection timed out",
        sources := [{ reference_number := 1,
                      text := "the migration plan was approved by the team",
                      channel := "general", user := "carol", timestamp := "100",
                      distance := none }],
        confidence := 0,
        confidence_explanation := "Error: connection timed out",
        project_links := [],
        context_used := 1,
        model := none } := by
  have h := C4_generation_failure_degrades envC4 qaW1 qC3 10 none none
    ("connection timed out")
    [{ reference_number := 1, text := "the migration plan was approved by the team",
       channel := "general", user := "carol", timestamp := "100", distance := none }]
    (by decide) rfl (fun s u => rfl) (by decide) (by rfl)
  exact h

/-- Containment from an explicit factorization. -/
theorem strContains_of_eq {s t : String} (x y : String) (h : s = x ++ t ++ y) :
    strContains s t = true := by
  rw [h]
  exact strContains_middle x t y

/-- Every element of a filter list occurs as a factor of its `" and "` join. -/
theorem joinAnd_split (t : String) (filters : List String) (hmem : t ∈ filters) :
    ∃ x y, joinAnd filters = x ++ t ++ y := by
  induction filters with
  | nil => cases hmem
  | cons a rest ih =>
    rcases List.mem_cons.mp hmem with rfl | hrest
    · cases rest with
      | nil =>
        refine ⟨"", "", ?_⟩
        apply stringExt
        simp [joinAnd, String.data_append]
      | cons b bs =>
        refine ⟨"", " and " ++ joinAnd (b :: bs), ?_⟩
        apply stringExt
        simp [joinAnd, String.data_append, List.append_assoc]
    · obtain ⟨x, y, hxy⟩ := ih hrest
      cases rest with
      | nil => cases hrest
      | cons b bs =>
        refine ⟨a ++ " and " ++ x, y, ?_⟩
        apply stringExt
        have hj : joinAnd (a :: b :: bs) = a ++ " and " ++ joinAnd (b :: bs) := rfl
        rw [hj, hxy]
        simp [String.data_append, List.append_assoc]

/-- The empty-result text contains every active filter description. -/
theorem emptyAnswerText_contains (dOpt : Option Nat) (cf : Option String) (t : String)
    (hmem : t ∈ ((if optTruthyNat dOpt then ["last " ++ toString (dOpt.getD 0) ++ " days"]
      else []) ++
      (if optTruthyStr cf then ["#" ++ cf.getD "" ++ " channel"] else []))) :
    strContains (emptyAnswerText dOpt cf) t = true := by
  obtain ⟨x, y, hxy⟩ := joinAnd_split t _ hmem
  have hne : ((if optTruthyNat dOpt then ["last " ++ toString (dOpt.getD 0) ++ " days"]
      else []) ++
      (if optTruthyStr cf then ["#" ++ cf.getD "" ++ " channel"] else [])).isEmpty = false := by
    rw [List.isEmpty_eq_false_iff_exists_mem]
    exact ⟨t, hmem⟩
  simp only [emptyAnswerText]
  rw [if_neg (by simp [hne]), hxy]
  refine strContains_of_eq
    (("I couldn" ++ squo ++ "t find any substantive messages in the ") ++ x)
    (y ++ ". There may be very little activity during this period, or the messages might be too short/simple to be useful (like emoji reactions or join notifications).\n\nTry:\n• Asking about a different time period\n• Asking without specifying a channel\n• Asking about a more general topic")
    ?_
  apply stringExt
  simp [String.data_append, List.append_assoc]

/-- Claim C5: empty-result determinism — when retrieval plus quality
filtering leaves no survivors, `answer_question` returns (never raises) an
answer with confidence 0, no sources, zero context, and text naming
whichever of the day window and channel filter were active. -/
theorem C5_empty_result (env : Env) (svc : QAService) (question : String) (n : Nat)
    (cf : Option String) (d : Option Nat)
    (hws : svc.query_service.workspace_id ≠ "")
    (hempty : surviving env svc.query_service.workspace_id question n cf d = []) :
    ∃ a, answer_question env svc question n cf d = .ok a ∧
      a.confidence = 0 ∧ a.sources = [] ∧ a.context_used = 0 ∧
      a.confidence_explanation = "No relevant messages found after filtering" ∧
      (∀ dd : Nat, resolveDays question d = some dd → dd ≠ 0 →
          strContains a.answer ("last " ++ toString dd ++ " days") = true) ∧
      (∀ c : String, resolveChannel question cf = some c → c ≠ "" →
          strContains a.answer ("#" ++ c ++ " channel") = true) := by
  rw [answer_question_eq env svc question n cf d hws, if_pos (by simp [hempty])]
  refine ⟨emptyResultAnswer (resolveDays question d) (resolveChannel question cf),
    rfl, rfl, rfl, rfl, rfl, ?_, ?_⟩
  · intro dd hdd hdd0
    show strContains (emptyAnswerText (resolveDays question d) (resolveChannel question cf))
      ("last " ++ toString dd ++ " days") = true
    rw [hdd]
    apply emptyAnswerText_contains
    have ht : optTruthyNat (some dd) = true := by simp [optTruthyNat, hdd0]
    rw [ht]
    simp
  · intro c hc hcne
    show strContains (emptyAnswerText (resolveDays question d) (resolveChannel question cf))
      ("#" ++ c ++ " channel") = true
    rw [hc]
    apply emptyAnswerText_contains
    have ht : optTruthyStr (some c) = true := by simp [optTruthyStr, hcne]
    rw [ht]
    simp

/-- Claim C5 witness: a question inferring both the 2-day window and the
`#general` channel against an empty store yields the zero-confidence
empty-sources answer naming both filters. -/
theorem C5_empty_result_witness :
    ∃ a, answer_question envEmpty qaW1 qC5 10 none none = .ok a ∧
      a.confidence = 0 ∧ a.sources = [] ∧ a.context_used = 0 ∧
      a.confidence_explanation = "No relevant messages found after filtering" ∧
      (∀ dd : Nat, resolveDays qC5 none = some dd → dd ≠ 0 →
          strContains a.answer ("last " ++ toString dd ++ " days") = true) ∧
      (∀ c : String, resolveChannel qC5 none = some c → c ≠ "" →
          strContains a.answer ("#" ++ c ++ " channel") = true) :=
  C5_empty_result envEmpty qaW1 qC5 10 none none (by decide) (by decide)
